import Mathlib

/-!
Verification development for the occi-cad API: the parametric compute
identity and job orchestration subsystem.

The definitions below are a shallow embedding of the Python sources:

* src/occilib/CadScript.py — ModelRequest, CadScript and its methods
  (hash, is_cachable, iterate_possible_model_params_dicts,
  get_num_variants, get_param_query_string);
* src/occilib/Admin.py — credential validation, the admin endpoints and
  the publish request handler;
* src/main.py — the job status polling endpoint get_model_compute_task.

Machine integers are modelled as Nat with explicit reduction modulo
2 to the 32 (and 64) where the Python code relies on fixed width
behaviour, namely inside the MD5 digest used by CadScript.hash.
Parameter configuration classes live in src/occilib/Param.py, which is
not part of the sources at hand; they are modelled from the spec where
so marked.
-/

set_option maxRecDepth 100000

/-! ## MD5 digest, base64 url-safe encoding and UTF-8 bytes

CadScript._hash computes
base64.urlsafe_b64encode(hashlib.md5(inp.encode()).digest())[:11].
The digest is embedded bit for bit: 32 bit words are Nat values kept
below 2 to the 32 by explicit mod operations. -/

/-- Mask value 2 to the 32 minus 1, used for 32 bit truncation. -/
def M32 : Nat := 4294967295

/-- Left rotation of a 32 bit word by n places. -/
def rotl32 (x n : Nat) : Nat :=
  ((x <<< n) &&& M32) ||| (x >>> (32 - n))

/-- Round constants of MD5, the integer parts of abs(sin(i + 1)) scaled by 2 to the 32. -/
def md5K : List Nat :=
  [3614090360, 3905402710, 606105819, 3250441966,
   4118548399, 1200080426, 2821735955, 4249261313,
   1770035416, 2336552879, 4294925233, 2304563134,
   1804603682, 4254626195, 2792965006, 1236535329,
   4129170786, 3225465664, 643717713, 3921069994,
   3593408605, 38016083, 3634488961, 3889429448,
   568446438, 3275163606, 4107603335, 1163531501,
   2850285829, 4243563512, 1735328473, 2368359562,
   4294588738, 2272392833, 1839030562, 4259657740,
   2763975236, 1272893353, 4139469664, 3200236656,
   681279174, 3936430074, 3572445317, 76029189,
   3654602809, 3873151461, 530742520, 3299628645,
   4096336452, 1126891415, 2878612391, 4237533241,
   1700485571, 2399980690, 4293915773, 2240044497,
   1873313359, 4264355552, 2734768916, 1309151649,
   4149444226, 3174756917, 718787259, 3951481745]

/-- Per round shift amounts of MD5. -/
def md5S : List Nat :=
  [7, 12, 17, 22, 7, 12, 17, 22, 7, 12, 17, 22, 7, 12, 17, 22,
   5, 9, 14, 20, 5, 9, 14, 20, 5, 9, 14, 20, 5, 9, 14, 20,
   4, 11, 16, 23, 4, 11, 16, 23, 4, 11, 16, 23, 4, 11, 16, 23,
   6, 10, 15, 21, 6, 10, 15, 21, 6, 10, 15, 21, 6, 10, 15, 21]

/-- Nonlinear mixing function of MD5 round i applied to words b, c, d. -/
def md5Mix (i b c d : Nat) : Nat :=
  if i < 16 then (b &&& c) ||| ((b ^^^ M32) &&& d)
  else if i < 32 then (d &&& b) ||| ((d ^^^ M32) &&& c)
  else if i < 48 then b ^^^ c ^^^ d
  else c ^^^ (b ||| (d ^^^ M32))

/-- Message word index consumed by MD5 round i. -/
def md5MsgIndex (i : Nat) : Nat :=
  if i < 16 then i
  else if i < 32 then (5 * i + 1) % 16
  else if i < 48 then (3 * i + 5) % 16
  else (7 * i) % 16

/-- Single MD5 round on the state quadruple, consuming message words m. -/
def md5Step (m : List Nat) (st : Nat × Nat × Nat × Nat) (i : Nat) :
    Nat × Nat × Nat × Nat :=
  let a := st.1
  let b := st.2.1
  let c := st.2.2.1
  let d := st.2.2.2
  let f := (md5Mix i b c d + a + md5K.getD i 0 + m.getD (md5MsgIndex i) 0) % 4294967296
  (d, (b + rotl32 f (md5S.getD i 0)) % 4294967296, b, c)

/-- Compression of one 16 word chunk into the running MD5 state. -/
def md5Chunk (st : Nat × Nat × Nat × Nat) (m : List Nat) : Nat × Nat × Nat × Nat :=
  let r := (List.range 64).foldl (md5Step m) st
  ((st.1 + r.1) % 4294967296, (st.2.1 + r.2.1) % 4294967296,
   (st.2.2.1 + r.2.2.1) % 4294967296, (st.2.2.2 + r.2.2.2) % 4294967296)

/-- Folding of all 16 word chunks of a padded message into the MD5 state.
The fuel argument is instantiated with the word count, which bounds the
number of chunks, so it never runs out on a padded message. -/
def md5Blocks (fuel : Nat) (st : Nat × Nat × Nat × Nat) (ws : List Nat) :
    Nat × Nat × Nat × Nat :=
  match fuel, ws with
  | 0, _ => st
  | _, [] => st
  | f + 1, ws => md5Blocks f (md5Chunk st (ws.take 16)) (ws.drop 16)

/-- Little endian packing of bytes into 32 bit words. -/
def wordsLE : List Nat → List Nat
  | b0 :: b1 :: b2 :: b3 :: rest =>
      (b0 + 256 * b1 + 65536 * b2 + 16777216 * b3) :: wordsLE rest
  | _ => []

/-- Little endian byte rendering of a value into k bytes. -/
def natLEBytes : Nat → Nat → List Nat
  | 0, _ => []
  | k + 1, v => (v % 256) :: natLEBytes k (v / 256)

/-- Standard MD5 padding: a 128 byte marker, zeros up to 56 mod 64, then
the bit length as a 64 bit little endian quantity. -/
def md5Pad (msg : List Nat) : List Nat :=
  let padZeros := (120 - (msg.length + 1) % 64) % 64
  msg ++ [128] ++ List.replicate padZeros 0 ++
    natLEBytes 8 ((8 * msg.length) % 18446744073709551616)

/-- Digest of a byte list under MD5, as the usual 16 byte little endian output. -/
def md5Bytes (msg : List Nat) : List Nat :=
  let ws := wordsLE (md5Pad msg)
  let r := md5Blocks ws.length (1732584193, 4023233417, 2562383102, 271733878) ws
  natLEBytes 4 r.1 ++ natLEBytes 4 r.2.1 ++ natLEBytes 4 r.2.2.1 ++ natLEBytes 4 r.2.2.2

/-- Character of the url-safe base64 alphabet at index n. -/
def b64urlChar (n : Nat) : Char :=
  ("ABCDEFGHIJKLMNOPQRSTUVWXYZabcdefghijklmnopqrstuvwxyz0123456789-_").data.getD n 'A'

/-- Encoding of a byte list into url-safe base64, padded with the equals sign
exactly as base64.urlsafe_b64encode does. -/
def b64urlEncode : List Nat → List Char
  | b0 :: b1 :: b2 :: rest =>
      let n := b0 * 65536 + b1 * 256 + b2
      b64urlChar (n / 262144) :: b64urlChar ((n / 4096) % 64) ::
        b64urlChar ((n / 64) % 64) :: b64urlChar (n % 64) :: b64urlEncode rest
  | [b0, b1] =>
      let n := b0 * 65536 + b1 * 256
      [b64urlChar (n / 262144), b64urlChar ((n / 4096) % 64), b64urlChar ((n / 64) % 64), '=']
  | [b0] =>
      let n := b0 * 65536
      [b64urlChar (n / 262144), b64urlChar ((n / 4096) % 64), '=', '=']
  | [] => []

/-- Byte sequence of a single code point in UTF-8, as str.encode produces. -/
def utf8Enc (c : Nat) : List Nat :=
  if c < 128 then [c]
  else if c < 2048 then [192 + c / 64, 128 + c % 64]
  else if c < 65536 then [224 + c / 4096, 128 + (c / 64) % 64, 128 + c % 64]
  else [240 + c / 262144, 128 + (c / 4096) % 64, 128 + (c / 64) % 64, 128 + c % 64]

/-- Bytes of a string in UTF-8. -/
def strBytes (s : String) : List Nat :=
  s.data.flatMap (fun c => utf8Enc c.toNat)

/-- Truncation length of the identity, HASH_LENGTH_TRUNCATE in CadScript._hash. -/
def HASH_LENGTH_TRUNCATE : Nat := 11

/-- Embedding of CadScript._hash: the first eleven characters of the
url-safe base64 encoding of the MD5 digest of the UTF-8 bytes of inp. -/
def cadHash (inp : String) : String :=
  String.mk ((b64urlEncode (md5Bytes (strBytes inp))).take HASH_LENGTH_TRUNCATE)

/-! ## Parameter values and parameter configurations -/

/-- Concrete parameter value carried in a parameter assignment. -/
inductive PValue where
  | int (n : Int)
  | str (s : String)
  | bool (b : Bool)
  deriving DecidableEq, Repr

/-- Rendering of a value inside a Python f-string, as in name=value pairs. -/
def PValue.render : PValue → String
  | .int n => toString n
  | .str s => s
  | .bool b => if b then "True" else "False"

/-- Modelled from the spec: the parameter configuration classes of
src/occilib/Param.py (ParamConfigBase, ParamConfigNumber, ParamConfigText,
ParamConfigBoolean, ParamConfigOptions) are not among the sources at hand,
only their callers in CadScript.py are. Spec sections 3 and 4.1 describe
them as carrying a name, a default value, an enabled flag, an iterable
flag that is true exactly when the value domain is finite and enumerable,
and a values method producing an ordered finite sequence of allowed values
or the unbounded sentinel. The domain field below is that sequence, with
none as the sentinel. -/
structure ParamConfig where
  name : String
  default : PValue
  enabled : Bool
  domain : Option (List PValue)
  deriving DecidableEq, Repr

/-- Modelled from the spec: the values method of a parameter
configuration, returning the finite ordered domain or the unbounded
sentinel none. -/
def ParamConfig.values (p : ParamConfig) : Option (List PValue) := p.domain

/-- Modelled from the spec: the iterable flag, true exactly when the
value domain is finite and enumerable. -/
def ParamConfig.iterable (p : ParamConfig) : Bool := p.domain.isSome

/-! ## ModelRequest -/

/-- Python exceptions surfaced by the embedded code. -/
inductive PyExc where
  | attributeError (msg : String)
  deriving DecidableEq, Repr

deriving instance DecidableEq for Except

/-- Embedding of ModelRequest from CadScript.py with the fields the
claims are about: the request hash, the simple name value parameter
pairs in insertion order, the requested format and the output mode. -/
structure ModelRequest where
  hash : Option String
  params : List (String × PValue)
  format : String
  output : Option String
  deriving DecidableEq, Repr

/-- Default ModelRequest instance, as constructed by ModelRequest() with
format step and output None. -/
def ModelRequest.mkDefault : ModelRequest :=
  { hash := none, params := [], format := "step", output := none }

/-- Self.output or the word model: a falsy output value, both None and
the empty string, falls back to the word model. -/
def ModelRequest.outputOrModel (r : ModelRequest) : String :=
  match r.output with
  | none => "model"
  | some o => if o = "" then "model" else o

/-- Loop body of get_param_query_string. Each iteration executes the
statement query_param_values.append = f-string, an attribute assignment
on a list object, which raises AttributeError in Python; so the loop
raises on the first item and only an empty params dict survives it. -/
def buildQueryParams : List (String × PValue) → Except PyExc (List String)
  | [] => .ok []
  | _ :: _ => .error (.attributeError "list object attribute append is read-only")

/-- Embedding of ModelRequest.get_param_query_string. -/
def ModelRequest.get_param_query_string (r : ModelRequest) : Except PyExc String :=
  match buildQueryParams r.params with
  | .error e => .error e
  | .ok vals =>
      let suffix := if 0 < vals.length then "&" ++ String.intercalate "&" vals else ""
      .ok ("?format=" ++ r.format ++ "&output=" ++ r.outputOrModel ++ suffix)

/-! ## CadScript and its methods -/

/-- Embedding of CadScript (and of its subclass CadScriptRequest) from
CadScript.py, restricted to the fields the claims touch. The request
field is none on a plain CadScript, which has no request attribute, and
some r on a CadScriptRequest. The params list is the insertion ordered
params dict of parameter configurations. -/
structure CadScript where
  name : String
  org : Option String
  version : String
  code : Option String
  params : List ParamConfig
  request : Option ModelRequest
  deriving DecidableEq, Repr

/-- Embedding of CadScript.get_namespace on an instance. -/
def CadScript.get_namespace (s : CadScript) : Option String :=
  match s.org with
  | some o => if 0 < o.length ∧ 0 < s.name.length then some (o ++ "/" ++ s.name) else none
  | none => none

/-- Concatenation of name=value pairs with trailing ampersands, exactly
the params_str accumulation loop inside CadScript.hash. -/
def paramsString (ps : List (String × PValue)) : String :=
  ps.foldl (fun acc nv => acc ++ nv.1 ++ "=" ++ nv.2.render ++ "&") ""

/-- Value computed by CadScript.hash for a script name and an insertion
ordered parameter assignment: CadScript._hash applied to the name
concatenated with the name=value pair string. -/
def scriptIdentity (name : String) (ps : List (String × PValue)) : String :=
  cadHash (name ++ paramsString ps)

/-- Embedding of CadScript.hash as a state transformer. With no params
argument the params of the attached request are used, and None is
returned when there is no request; the computed hash is also written to
request.hash whenever the script has a request attribute. The returned
pair is the Python return value together with the script state after the
call. -/
def CadScript.hash (s : CadScript) (params : Option (List (String × PValue))) :
    Option String × CadScript :=
  match params, s.request with
  | none, none => (none, s)
  | none, some r =>
      let h := scriptIdentity s.name r.params
      (some h, { s with request := some { r with hash := some h } })
  | some ps, none =>
      (some (scriptIdentity s.name ps), s)
  | some ps, some r =>
      let h := scriptIdentity s.name ps
      (some h, { s with request := some { r with hash := some h } })

/-- Embedding of CadScript.is_cachable: no parameter may have a false
iterable flag. -/
def CadScript.is_cachable (s : CadScript) : Bool :=
  s.params.all (fun p => p.iterable)

/-- Per parameter value lists gathered by both enumeration methods: the
values of an enabled parameter, or the singleton default for a disabled
one. An enabled parameter with an unbounded domain contributes the
sentinel none, on which itertools.product raises TypeError. -/
def paramDomainsEnabled (s : CadScript) : List (Option (List PValue)) :=
  s.params.map (fun p => if p.enabled then p.values else some [p.default])

/-- Sequencing of the gathered value lists: some only when every list is
present, mirroring that itertools.product(*lists) raises on a None
argument before yielding anything. -/
def allSome : List (Option (List PValue)) → Option (List (List PValue))
  | [] => some []
  | none :: _ => none
  | some x :: rest => (allSome rest).map (fun xs => x :: xs)

/-- Embedding of itertools.product over a list of lists: combinations
start from the first values and the last list varies fastest. -/
def pyProduct : List (List PValue) → List (List PValue)
  | [] => [[]]
  | l :: ls => l.flatMap (fun x => (pyProduct ls).map (fun ys => x :: ys))

/-- Embedding of CadScript.iterate_possible_model_params_dicts, by value:
each combination is zipped with the declared parameter names into an
insertion ordered dict and paired with its hash. The none result models
the TypeError raised when an enabled parameter has an unbounded domain.
The hash of each yielded set is the value CadScript.hash returns for it;
the request mutation that call also performs is settled separately. -/
def CadScript.iterate_possible_model_params_dicts (s : CadScript) :
    Option (List (String × List (String × PValue))) :=
  (allSome (paramDomainsEnabled s)).map (fun doms =>
    (pyProduct doms).map (fun combo =>
      let paramValues := (s.params.map ParamConfig.name).zip combo
      (scriptIdentity s.name paramValues, paramValues)))

/-- Parameters selected by get_num_variants: all of them when only_params
is None, otherwise the configurations of the listed names that exist,
each taken once (the Python dict comprehension keys them by name). -/
def selectedParams (s : CadScript) (only : Option (List String)) : List ParamConfig :=
  match only with
  | none => s.params
  | some names => names.eraseDups.filterMap (fun pn => s.params.find? (fun p => p.name = pn))

/-- Accumulation loop of get_num_variants: disabled parameters are
skipped, an enabled parameter with an unbounded domain aborts with None,
otherwise the domain size is multiplied in. -/
def numVariantsLoop : List ParamConfig → Nat → Option Nat
  | [], acc => some acc
  | p :: ps, acc =>
      if p.enabled then
        match p.values with
        | none => none
        | some v => numVariantsLoop ps (acc * v.length)
      else numVariantsLoop ps acc

/-- Embedding of CadScript.get_num_variants. -/
def CadScript.get_num_variants (s : CadScript) (only : Option (List String)) : Option Nat :=
  numVariantsLoop (selectedParams s only) 1

/-! ## Spec side definitions used for refinement statements -/

/-- Variant count as the spec words it: the product of the domain sizes
of the selected parameters, a disabled parameter counting as one, and
the unbounded sentinel when any selected enabled parameter has an
unbounded domain. -/
def specVariantCount (sel : List ParamConfig) : Option Nat :=
  if sel.any (fun p => p.enabled && p.values.isNone) then none
  else some (sel.map (fun p => if p.enabled then (p.values.getD []).length else 1)).prod

/-- Extension step of the spec ordering: every already built prefix
combination is extended with each value of the next domain in turn. -/
def specCartesianStep (acc : List (List PValue)) (dom : List PValue) :
    List (List PValue) :=
  acc.flatMap (fun xs => dom.map (fun y => xs ++ [y]))

/-- Cartesian product in the order the spec describes: domains are folded
in declaration order and each new domain extends every existing prefix at
the end, so the last declared domain cycles fastest. -/
def specCartesian (doms : List (List PValue)) : List (List PValue) :=
  doms.foldl specCartesianStep [[]]

/-- Domain actually enumerated for one parameter: its values when
enabled, the singleton default otherwise. -/
def enumeratedDomain (p : ParamConfig) : List PValue :=
  if p.enabled then p.values.getD [] else [p.default]

/-! ## Admin.py: credentials, endpoints and the publish handler -/

/-- HTTP error raised through fastapi HTTPException. -/
structure HttpError where
  statusCode : Nat
  detail : String
  deriving DecidableEq, Repr

/-- Basic auth credentials as fastapi hands them to the dependency. -/
structure Credentials where
  username : String
  password : String
  deriving DecidableEq, Repr

/-- Embedding of Admin._validate_credentials: the username must equal the
constant admin user and the password must equal the configured
passphrase, otherwise a 401 error is raised. The misspelled detail text
is as in the source. -/
def Admin.validate_credentials (passphrase : String) (c : Credentials) :
    Except HttpError Credentials :=
  if c.username = "admin" && c.password = passphrase then .ok c
  else .error { statusCode := 401, detail := "Incorrect usernamd and password" }

/-- Client visible outcome of one admin endpoint call: either an HTTP
error, or the endpoint body ran and produced its orchestration result,
identified here by a tag. -/
inductive EndpointOutcome where
  | httpError (code : Nat) (detail : String)
  | orchestrated (tag : String)
  deriving DecidableEq, Repr

/-- Dependency resolution as fastapi performs it for a route whose
signature carries Depends(self._validate_credentials): the dependency is
evaluated first and a raised 401 short-circuits the body. -/
def runWithAuth (passphrase : String) (c : Credentials) (body : EndpointOutcome) :
    EndpointOutcome :=
  match Admin.validate_credentials passphrase c with
  | .error e => .httpError e.statusCode e.detail
  | .ok _ => body

/-- Embedding of PublishRequest from Admin.py. -/
structure PublishRequest where
  pre_calculate : Bool
  script : Option CadScript
  deriving DecidableEq, Repr

/-- Status values of a publish job. -/
inductive PublishJobStatus where
  | success
  | computing
  | error
  deriving DecidableEq, Repr

/-- Embedding of PublishJob from Admin.py, restricted to the fields the
claims touch. -/
structure PublishJob where
  id : String
  script : CadScript
  status : PublishJobStatus
  deriving DecidableEq, Repr

/-- Minimum length settings of the Admin class. -/
def SCRIPT_ORG_MIN_CHARS : Nat := 4

/-- Minimum length of a script name accepted by the publish checks. -/
def SCRIPT_NAME_MIN_CHARS : Nat := 4

/-- Minimum length of the code field accepted by the publish checks. -/
def SCRIPT_CODE_MIN_CHARS : Nat := 10

/-- Embedding of Admin._check_publish_request. The source returns True
after validating; the embedding returns the validated script so the
caller can use it, and the error raised otherwise. -/
def Admin.check_publish_request (req : Option PublishRequest) :
    Except HttpError CadScript :=
  match req with
  | none =>
      .error ⟨400,
        "Compute task not found or in error state. Please go back to original request url!"⟩
  | some r =>
    match r.script with
    | none => .error ⟨400, "Please supply a script to be published"⟩
    | some s =>
      if s.get_namespace = none then
        .error ⟨400,
          "Make sure your script has a valid namespace. Set org and name fields!"⟩
      else if (s.org.getD "").length < SCRIPT_ORG_MIN_CHARS then
        .error ⟨400, "The org field of your script is too short."⟩
      else if s.name.length < SCRIPT_NAME_MIN_CHARS then
        .error ⟨400, "The name field of your script is too short."⟩
      else if s.code = none ∨ (s.code.getD "").length < SCRIPT_CODE_MIN_CHARS then
        .error ⟨400,
          "Your script contains no field code or too little code."⟩
      else .ok s

/-- Modelled from the spec: Admin._handle_publish_request calls
req.script.is_pre_cachable(), whose definition is not among the sources
at hand (only this caller is; CadScript.py as given defines is_cachable).
Spec sections 4.1 and 4.3 define exactly one cachability predicate, true
when every parameter is iterable, which is CadScript.is_cachable; the
pre-cachability test is modelled as that predicate. -/
def CadScript.is_pre_cachable (s : CadScript) : Bool := s.is_cachable

/-- Observable effect of one publish request: the returned job or raised
error, whether the script was stored in the library, and the batch ids
passed to library.compute_script_cache_async, the call that enumerates
the parameter space and submits the compute batch. -/
structure PublishEffects where
  job : Except HttpError PublishJob
  addedToLibrary : Bool
  computeBatchSubmitted : List String
  deriving Repr

/-- Embedding of Admin._handle_publish_request. The addScriptOk argument
is the result of library.add_script (library persistence is an external
collaborator); freshJobId and newBatchId stand for the uuid4 values drawn
in the two branches. A compute batch is submitted, via an asyncio task
running compute_script_cache_async, only in the final branch. -/
def Admin.handle_publish_request (req : PublishRequest) (addScriptOk : Bool)
    (freshJobId newBatchId : String) : PublishEffects :=
  match Admin.check_publish_request (some req) with
  | .error e => ⟨.error e, false, []⟩
  | .ok s =>
    if addScriptOk = false then
      ⟨.error ⟨400,
        "Cannot publish script. It already exists. Try another name or version tag!"⟩,
        false, []⟩
    else if req.pre_calculate = false ∨ s.is_pre_cachable = false then
      ⟨.ok ⟨freshJobId, s, .success⟩, true, []⟩
    else
      ⟨.ok ⟨newBatchId, s, .computing⟩, true, [newBatchId]⟩

/-- Embedding of the publish route: dependency resolution of the
credentials, then the handler body. -/
def Admin.publish_endpoint (passphrase : String) (c : Credentials)
    (req : PublishRequest) (addScriptOk : Bool) (freshJobId newBatchId : String) :
    EndpointOutcome :=
  runWithAuth passphrase c
    (match (Admin.handle_publish_request req addScriptOk freshJobId newBatchId).job with
     | .error e => .httpError e.statusCode e.detail
     | .ok _ => .orchestrated "publish")

/-- Embedding of the publish job status route: dependency resolution of
the credentials, then the lookup of the job in the registry. -/
def Admin.get_pub_job_endpoint (passphrase : String) (c : Credentials)
    (jobFound : Bool) (job_id : String) : EndpointOutcome :=
  runWithAuth passphrase c
    (if jobFound then .orchestrated "publish job status"
     else .httpError 404 ("Cannot find publish job with id " ++ job_id))

/-- Embedding of the unpublish route: dependency resolution of the
credentials, then the body, which currently just echoes the script id. -/
def Admin.unpublish_endpoint (passphrase : String) (c : Credentials)
    (script_id : Nat) : EndpointOutcome :=
  runWithAuth passphrase c (.orchestrated ("unpublish " ++ toString script_id))

/-- Embedding of the pre-calculation submission route: dependency
resolution of the credentials, then the handler for the precalc request. -/
def Admin.precalc_endpoint (passphrase : String) (c : Credentials)
    (script_org script_name script_version : String) : EndpointOutcome :=
  runWithAuth passphrase c
    (.orchestrated ("precalc " ++ script_org ++ "/" ++ script_name ++ "/" ++ script_version))

/-- Embedding of the pre-calculation batch status route. Its source
signature carries no credentials dependency at all, so the embedding
takes none and the body runs for every request: it always reaches the
orchestration call library.get_compute_batch. -/
def Admin.precalc_job_endpoint (batch_id : String) : EndpointOutcome :=
  .orchestrated ("precalc batch status " ++ batch_id)

/-! ## main.py: the job status polling endpoint -/

/-- Celery task states as the worker pool reports them, matching the
poll interface of spec section 6: unknown, running, queued for retry,
resolved, failed. -/
inductive CeleryState where
  | PENDING
  | STARTED
  | RETRY
  | SUCCESS
  | FAILURE
  deriving DecidableEq, Repr

/-- Ready test of a celery AsyncResult: the task is in a terminal state. -/
def CeleryState.ready : CeleryState → Bool
  | .SUCCESS => true
  | .FAILURE => true
  | _ => false

/-- Status string of a celery state, as AsyncResult.status renders it. -/
def CeleryState.statusName : CeleryState → String
  | .PENDING => "PENDING"
  | .STARTED => "STARTED"
  | .RETRY => "RETRY"
  | .SUCCESS => "SUCCESS"
  | .FAILURE => "FAILURE"

/-- Embedding of ModelComputeJob from CadScript.py with the fields the
polling endpoint returns. -/
structure ModelComputeJob where
  status : String
  celery_task_id : Option String
  celery_task_status : Option String
  elapsed_time : Option Int
  deriving DecidableEq, Repr

/-- Response of the job status endpoint: an HTTP error, the final result
payload with status 200, or the in-progress job payload with status 202. -/
inductive JobPollResponse where
  | httpError (code : Nat) (detail : String)
  | result (payload : String) (code : Nat)
  | jobStatus (job : ModelComputeJob) (code : Nat)
  deriving DecidableEq, Repr

/-- Detail text of the not-found error, shared verbatim by the unknown,
failed and inconsistent cases in main.py. -/
def taskNotFoundDetail : String :=
  "Compute task not found or in error state. Please go back to original request url!"

/-- Embedding of get_model_compute_task from main.py. The celery state of
the polled task reference, the stored result payload (held by the worker
pool, returned opaquely) and the in-flight marker lookup result of
library.check_script_model_computing_job are the inputs that decide the
dispatch: PENDING means unknown because submission sets the state
directly, and together with FAILURE it yields 404; a ready task yields
the result payload with 200; otherwise the marker job, when present,
comes back with 202 and its celery status refreshed, and a missing
marker yields the same 404. -/
def get_model_compute_task (st : CeleryState) (resultPayload : String)
    (markerJob : Option ModelComputeJob) : JobPollResponse :=
  if st = .PENDING ∨ st = .FAILURE then .httpError 404 taskNotFoundDetail
  else if st.ready then .result resultPayload 200
  else
    match markerJob with
    | none => .httpError 404 taskNotFoundDetail
    | some j => .jobStatus { j with celery_task_status := some st.statusName } 202

/-! ## Concrete instances used by witnesses and counterexamples -/

/-- Width parameter of the box scenario of spec section 8: a number
parameter with the finite domain one, two, three. -/
def widthParam : ParamConfig :=
  { name := "width", default := .int 1, enabled := true,
    domain := some [.int 1, .int 2, .int 3] }

/-- Color parameter of the box scenario: an options parameter with the
domain red, blue, declared last. -/
def colorParam : ParamConfig :=
  { name := "color", default := .str "red", enabled := true,
    domain := some [.str "red", .str "blue"] }

/-- Box script of the concrete scenario in spec section 8. -/
def boxScript : CadScript :=
  { name := "box", org := some "occi", version := "1.0", code := some "box cad code",
    params := [widthParam, colorParam], request := none }

/-- Box script wrapped as a CadScriptRequest carrying the default
ModelRequest instance, whose hash field is still None. -/
def boxScriptRequest : CadScript :=
  { boxScript with request := some ModelRequest.mkDefault }

/-- Enabled parameter with an unbounded domain: a continuous number
without a step, whose values method returns the sentinel. -/
def ncParam : ParamConfig :=
  { name := "radius", default := .int 1, enabled := true, domain := none }

/-- Script that is not cachable because its single enabled parameter is
not iterable. -/
def freeformScript : CadScript :=
  { name := "freeform", org := some "occi", version := "1.0",
    code := some "freeform cad code", params := [ncParam], request := none }

/-- Disabled parameter with an unbounded domain. -/
def lockedParam : ParamConfig :=
  { name := "depth", default := .int 10, enabled := false, domain := none }

/-- Script whose only non iterable parameter is disabled: not cachable,
yet its variant count is finite. -/
def lockedScript : CadScript :=
  { name := "bracket", org := some "occi", version := "1.0",
    code := some "bracket cad code", params := [lockedParam], request := none }

/-- Publish request asking for pre-calculation of the non cachable
freeform script. -/
def precalcRequest : PublishRequest :=
  { pre_calculate := true, script := some freeformScript }

/-- Valid publish request without pre-calculation. -/
def validPublishRequest : PublishRequest :=
  { pre_calculate := false, script := some boxScript }

/-- Passphrase configured for the admin instance in the scenarios. -/
def adminPass : String := "occi-admin-passphrase"

/-- Credentials with the right username and a wrong password. -/
def badCreds : Credentials := { username := "admin", password := "wrong" }

/-- In-flight marker job consulted by the polling scenarios. -/
def sampleJob : ModelComputeJob :=
  { status := "working", celery_task_id := some "t1",
    celery_task_status := none, elapsed_time := some 5 }

/-- Request carrying one parameter, for the query string scenarios. -/
def fullRequest : ModelRequest :=
  { hash := none, params := [("width", .int 100)], format := "step", output := some "full" }

/-! ## Helper lemmas -/

/-- Accumulator characterisation of the get_num_variants loop against the
spec side variant count. -/
lemma numVariantsLoop_eq (l : List ParamConfig) (acc : Nat) :
    numVariantsLoop l acc = (specVariantCount l).map (fun k => acc * k) := by
  induction l generalizing acc with
  | nil => simp [numVariantsLoop, specVariantCount]
  | cons p ps ih =>
    by_cases hp : p.enabled
    · cases hv : p.values with
      | none =>
        simp [numVariantsLoop, specVariantCount, hp, hv]
      | some v =>
        by_cases hany : ps.any (fun q => q.enabled && q.values.isNone)
        · simp [numVariantsLoop, specVariantCount, hp, hv, hany, ih]
        · simp [numVariantsLoop, specVariantCount, hp, hv, hany, ih, mul_assoc]
    · by_cases hany : ps.any (fun q => q.enabled && q.values.isNone)
      · simp [numVariantsLoop, specVariantCount, hp, hany, ih]
      · simp [numVariantsLoop, specVariantCount, hp, hany, ih]

/-- Sum of a constant map. -/
lemma sum_map_const {α : Type} (l : List α) (c : Nat) :
    (l.map (fun _ => c)).sum = l.length * c := by
  induction l with
  | nil => simp
  | cons a l ih => simp [ih, Nat.succ_mul, Nat.add_comm]

/-- Length of the product list is the product of the domain lengths. -/
lemma pyProduct_length (ls : List (List PValue)) :
    (pyProduct ls).length = (ls.map List.length).prod := by
  induction ls with
  | nil => simp [pyProduct]
  | cons l ls ih =>
    simp only [pyProduct, List.length_flatMap, Function.comp_def, List.length_map]
    rw [sum_map_const, ih, List.map_cons, List.prod_cons]

/-- Size of the enumerated domain of one parameter. -/
lemma length_enumeratedDomain (p : ParamConfig) :
    (enumeratedDomain p).length =
      if p.enabled then (p.values.getD []).length else 1 := by
  by_cases he : p.enabled <;> simp [enumeratedDomain, he]

/-- allSome on the gathered domains of an all iterable parameter list. -/
lemma allSome_of_iterable (ps : List ParamConfig)
    (h : ps.all (fun p => p.iterable) = true) :
    allSome (ps.map (fun p => if p.enabled then p.values else some [p.default])) =
      some (ps.map enumeratedDomain) := by
  induction ps with
  | nil => simp [allSome]
  | cons p ps ih =>
    rw [List.all_cons, Bool.and_eq_true] at h
    obtain ⟨v, hv⟩ := Option.isSome_iff_exists.mp h.1
    have hv2 : p.values = some v := hv
    by_cases he : p.enabled
    · simp [allSome, he, hv2, enumeratedDomain, ih h.2]
    · simp [allSome, he, enumeratedDomain, ih h.2]

/-- Cachability rules out an enabled parameter with the unbounded sentinel. -/
lemma not_any_unbounded_of_cachable (s : CadScript) (h : s.is_cachable = true) :
    s.params.any (fun p => p.enabled && p.values.isNone) = false := by
  rw [List.any_eq_false]
  intro p hp
  have hit := List.all_eq_true.mp h p hp
  simp [ParamConfig.iterable] at hit
  simp [ParamConfig.values]
  intro _hen hnone
  rw [hnone] at hit
  simp at hit

/-- Left fold of the spec extension step, characterised through the
product list: every accumulator prefix is extended by every combination. -/
lemma foldl_specCartesianStep (ds : List (List PValue)) (acc : List (List PValue)) :
    ds.foldl specCartesianStep acc =
      acc.flatMap (fun xs => (pyProduct ds).map (fun ys => xs ++ ys)) := by
  induction ds generalizing acc with
  | nil => simp [pyProduct]
  | cons d ds ih =>
    rw [List.foldl_cons, ih]
    simp [specCartesianStep, pyProduct, List.flatMap_assoc, List.flatMap_map,
      List.map_flatMap, List.map_map, Function.comp_def, List.append_assoc]

/-- Agreement of the source iteration order with the spec ordering: the
itertools product equals the declaration order fold in which the last
domain cycles fastest. -/
lemma specCartesian_eq_pyProduct (ds : List (List PValue)) :
    specCartesian ds = pyProduct ds := by
  rw [specCartesian, foldl_specCartesianStep]
  simp

/-- Membership in the product list is pointwise membership in the domains. -/
lemma mem_pyProduct (ds : List (List PValue)) (combo : List PValue) :
    combo ∈ pyProduct ds ↔ List.Forall₂ (fun x d => x ∈ d) combo ds := by
  induction ds generalizing combo with
  | nil => simp [pyProduct, List.forall₂_nil_right_iff]
  | cons d ds ih =>
    simp only [pyProduct, List.mem_flatMap, List.mem_map]
    constructor
    · rintro ⟨x, hx, ys, hys, rfl⟩
      exact List.Forall₂.cons hx ((ih ys).mp hys)
    · intro h
      cases h with
      | cons hx hys => exact ⟨_, hx, _, (ih _).mpr hys, rfl⟩

/-- Zipping the declared names with a combination drawn from the
enumerated domains gives an assignment aligned with the parameter list,
in which every disabled parameter carries its default value. -/
lemma forall₂_zip_names (ps : List ParamConfig) (combo : List PValue)
    (h : List.Forall₂ (fun x p => x ∈ enumeratedDomain p) combo ps) :
    List.Forall₂ (fun p nv => nv.1 = p.name ∧ (p.enabled = false → nv.2 = p.default))
      ps ((ps.map ParamConfig.name).zip combo) := by
  induction h with
  | nil => simp
  | cons hx hrest ih =>
    simp only [List.map_cons, List.zip_cons_cons]
    refine List.Forall₂.cons ⟨rfl, ?_⟩ ih
    intro hdis
    simpa [enumeratedDomain, hdis] using hx

/-! ## Claim theorems -/

/-- Claim C1: the claim states that the identity is order independent,
equal sets of name value pairs giving equal hashes. On the source this
fails: CadScript.hash concatenates the pairs in insertion order without
canonicalisation, so the two insertion orders of the box assignment,
equal as sets, hash to different identities. This theorem evaluates the
code at the failing input. -/
theorem C1_hash_depends_on_insertion_order :
    ([("width", PValue.int 1), ("color", PValue.str "red")] : List (String × PValue)).toFinset =
      ([("color", PValue.str "red"), ("width", PValue.int 1)] : List (String × PValue)).toFinset ∧
    (boxScript.hash (some [("width", PValue.int 1), ("color", PValue.str "red")])).1 =
      some "71Se-h08QnT" ∧
    (boxScript.hash (some [("color", PValue.str "red"), ("width", PValue.int 1)])).1 =
      some "Me94u7Pk4eN" ∧
    (boxScript.hash (some [("width", PValue.int 1), ("color", PValue.str "red")])).1 ≠
      (boxScript.hash (some [("color", PValue.str "red"), ("width", PValue.int 1)])).1 := by
  refine ⟨by decide, by decide, by decide, by decide⟩

/-- Claim C6 (amended): the returned identity is a pure function of the
script name and the given assignment, but the call is not free of side
effects: it writes the computed identity to request.hash whenever a
request is attached, and leaves every other field of the script and of
the request unchanged. -/
theorem C6_hash_value_pure_and_frame (s : CadScript) (ps : List (String × PValue)) :
    (s.hash (some ps)).1 = some (scriptIdentity s.name ps) ∧
    (s.hash (some ps)).2 =
      { s with request :=
          s.request.map (fun r => { r with hash := some (scriptIdentity s.name ps) }) } := by
  obtain ⟨n, o, v, c, pr, rq⟩ := s
  cases rq <;> simp [CadScript.hash]

/-- Claim C6 (counterexample to the claim as stated): hashing a concrete
assignment on a script with an attached request does not leave the
script unchanged, because request.hash is overwritten. -/
theorem C6_hash_mutates_request_hash :
    (boxScriptRequest.hash (some [("width", PValue.int 1)])).2 ≠ boxScriptRequest := by
  decide

/-- Claim C10: for every ModelRequest with a non empty params mapping,
get_param_query_string raises an AttributeError, because the loop body
assigns to the list method append instead of calling it, and never
returns a query string; only with empty params does it return the
format and output query string. -/
theorem C10_query_string_raises_on_params (r : ModelRequest) :
    (r.params ≠ [] →
      r.get_param_query_string =
        .error (.attributeError "list object attribute append is read-only")) ∧
    (r.params = [] →
      r.get_param_query_string =
        .ok ("?format=" ++ r.format ++ "&output=" ++ r.outputOrModel)) := by
  constructor
  · intro h
    cases hp : r.params with
    | nil => exact absurd hp h
    | cons a as => simp [ModelRequest.get_param_query_string, buildQueryParams, hp]
  · intro h
    simp [ModelRequest.get_param_query_string, buildQueryParams, h]

/-- Claim C10 witness: the concrete one parameter request raises and the
default empty request returns the plain query string. -/
theorem C10_query_string_witness :
    fullRequest.params ≠ [] ∧
    fullRequest.get_param_query_string =
      .error (.attributeError "list object attribute append is read-only") ∧
    ModelRequest.mkDefault.params = [] ∧
    ModelRequest.mkDefault.get_param_query_string = .ok "?format=step&output=model" := by
  refine ⟨by decide, (C10_query_string_raises_on_params fullRequest).1 (by decide),
    rfl, ?_⟩
  rw [(C10_query_string_raises_on_params ModelRequest.mkDefault).2 rfl]
  decide

/-- Claim C2: for every poll of the job status endpoint, an unknown
(PENDING) or failed task reference yields 404, and the two cases are
surfaced identically; a resolved task yields the final result payload
with 200; an unresolved task with an existing in-flight marker yields
the in-progress job payload, elapsed time included, with 202; and an
unresolved task without a marker yields 404 rather than hanging. -/
theorem C2_job_status_endpoint_cases (st : CeleryState) (payload : String)
    (markerJob : Option ModelComputeJob) :
    ((st = .PENDING ∨ st = .FAILURE) →
      get_model_compute_task st payload markerJob = .httpError 404 taskNotFoundDetail) ∧
    (get_model_compute_task .PENDING payload markerJob =
      get_model_compute_task .FAILURE payload markerJob) ∧
    (st = .SUCCESS →
      get_model_compute_task st payload markerJob = .result payload 200) ∧
    ((st = .STARTED ∨ st = .RETRY) → ∀ j, markerJob = some j →
      get_model_compute_task st payload markerJob =
        .jobStatus { j with celery_task_status := some st.statusName } 202) ∧
    ((st = .STARTED ∨ st = .RETRY) → markerJob = none →
      get_model_compute_task st payload markerJob = .httpError 404 taskNotFoundDetail) := by
  refine ⟨?_, ?_, ?_, ?_, ?_⟩ <;>
    cases st <;> cases markerJob <;>
      simp [get_model_compute_task, CeleryState.ready, CeleryState.statusName]

/-- Claim C2 witness: the dispatch at concrete inputs, one per case of
the claim. -/
theorem C2_job_status_endpoint_witness :
    get_model_compute_task .PENDING "result dict" (some sampleJob) =
      .httpError 404 taskNotFoundDetail ∧
    get_model_compute_task .FAILURE "result dict" (some sampleJob) =
      .httpError 404 taskNotFoundDetail ∧
    get_model_compute_task .SUCCESS "result dict" (some sampleJob) =
      .result "result dict" 200 ∧
    get_model_compute_task .STARTED "result dict" (some sampleJob) =
      .jobStatus { sampleJob with celery_task_status := some "STARTED" } 202 ∧
    get_model_compute_task .STARTED "result dict" none =
      .httpError 404 taskNotFoundDetail := by
  refine ⟨(C2_job_status_endpoint_cases .PENDING "result dict" (some sampleJob)).1 (Or.inl rfl),
    (C2_job_status_endpoint_cases .FAILURE "result dict" (some sampleJob)).1 (Or.inr rfl),
    (C2_job_status_endpoint_cases .SUCCESS "result dict" (some sampleJob)).2.2.1 rfl,
    ?_,
    (C2_job_status_endpoint_cases .STARTED "result dict" none).2.2.2.2 (Or.inl rfl) rfl⟩
  have h := (C2_job_status_endpoint_cases .STARTED "result dict"
    (some sampleJob)).2.2.2.1 (Or.inl rfl) sampleJob rfl
  simpa [CeleryState.statusName] using h

/-- Claim C5: a publish request asking for pre-calculation of a script
that is not cachable returns without submitting any compute batch, so
the parameter space is never enumerated; when the request passes
validation the returned job reports plain success. Cachability of the
pre-calculation branch is the spec modelled is_pre_cachable predicate. -/
theorem C5_publish_not_cachable_no_batch (req : PublishRequest) (s : CadScript)
    (hs : req.script = some s) (hpc : req.pre_calculate = true)
    (hnc : s.is_cachable = false) (addScriptOk : Bool) (freshJobId newBatchId : String) :
    (Admin.handle_publish_request req addScriptOk freshJobId newBatchId).computeBatchSubmitted
      = [] ∧
    ∀ j, (Admin.handle_publish_request req addScriptOk freshJobId newBatchId).job = .ok j →
      j.status = .success := by
  unfold Admin.handle_publish_request
  cases hchk : Admin.check_publish_request (some req) with
  | error e => simp
  | ok t =>
    have ht : t = s := by
      simp only [Admin.check_publish_request] at hchk
      simp only [hs] at hchk
      split_ifs at hchk <;> simp_all
    subst ht
    cases addScriptOk with
    | false => simp
    | true =>
      have : t.is_pre_cachable = false := by
        simpa [CadScript.is_pre_cachable] using hnc
      simp [this]

/-- Claim C5 witness: the pre-calculation publish request over the non
cachable freeform script submits no batch and reports success. -/
theorem C5_publish_not_cachable_witness :
    precalcRequest.script = some freeformScript ∧
    precalcRequest.pre_calculate = true ∧
    freeformScript.is_cachable = false ∧
    ((Admin.handle_publish_request precalcRequest true "job-1" "batch-1").computeBatchSubmitted
        = [] ∧
      ∀ j, (Admin.handle_publish_request precalcRequest true "job-1" "batch-1").job = .ok j →
        j.status = .success) :=
  ⟨rfl, rfl, by decide,
    C5_publish_not_cachable_no_batch precalcRequest freeformScript rfl rfl (by decide)
      true "job-1" "batch-1"⟩

/-- Claim C8: the claim states every admin endpoint rejects bad
credentials with 401 before orchestration. Four endpoints do; the
pre-calculation batch status endpoint carries no credentials dependency
in its source signature and always runs its orchestration body, so the
claim fails there. This theorem evaluates the code at the failing input. -/
theorem C8_precalc_status_endpoint_skips_auth :
    Admin.validate_credentials adminPass badCreds =
      .error ⟨401, "Incorrect usernamd and password"⟩ ∧
    Admin.publish_endpoint adminPass badCreds validPublishRequest true "job-1" "batch-1" =
      .httpError 401 "Incorrect usernamd and password" ∧
    Admin.get_pub_job_endpoint adminPass badCreds true "batch-1" =
      .httpError 401 "Incorrect usernamd and password" ∧
    Admin.unpublish_endpoint adminPass badCreds 7 =
      .httpError 401 "Incorrect usernamd and password" ∧
    Admin.precalc_endpoint adminPass badCreds "occi" "box" "1.0" =
      .httpError 401 "Incorrect usernamd and password" ∧
    Admin.precalc_job_endpoint "batch-1" = .orchestrated "precalc batch status batch-1" ∧
    ∀ code detail, Admin.precalc_job_endpoint "batch-1" ≠ .httpError code detail := by
  refine ⟨by decide, by decide, by decide, by decide, by decide, by decide, ?_⟩
  intro code detail h
  simp [Admin.precalc_job_endpoint] at h

/-- Claim C4: get_num_variants returns the product of the domain sizes
of the selected parameters, all of them when no selection is given,
disabled parameters counting as one, and the unbounded sentinel None
exactly when some selected enabled parameter has an unbounded domain. -/
theorem C4_num_variants_product_spec (s : CadScript) (only : Option (List String)) :
    s.get_num_variants only = specVariantCount (selectedParams s only) := by
  unfold CadScript.get_num_variants
  rw [numVariantsLoop_eq]
  cases specVariantCount (selectedParams s only) <;> simp

/-- Claim C3: on a cachable script the variant count equals the number
of parameter assignments yielded by the iteration. -/
theorem C3_num_variants_eq_iteration_count (s : CadScript)
    (h : s.is_cachable = true) :
    ∃ l, s.iterate_possible_model_params_dicts = some l ∧
      s.get_num_variants none = some l.length := by
  have hd := allSome_of_iterable s.params h
  refine ⟨(pyProduct (s.params.map enumeratedDomain)).map
      (fun combo =>
        (scriptIdentity s.name ((s.params.map ParamConfig.name).zip combo),
          (s.params.map ParamConfig.name).zip combo)), ?_, ?_⟩
  · unfold CadScript.iterate_possible_model_params_dicts paramDomainsEnabled
    rw [hd]
    rfl
  · unfold CadScript.get_num_variants selectedParams
    rw [numVariantsLoop_eq]
    have hany := not_any_unbounded_of_cachable s h
    simp only [specVariantCount, hany, Bool.false_eq_true, if_false, List.length_map,
      pyProduct_length, List.map_map, Function.comp_def, length_enumeratedDomain,
      Option.map_some]
    simp

/-- Claim C3 witness: the box script is cachable and its variant count
matches its iteration length. -/
theorem C3_num_variants_eq_iteration_count_witness :
    boxScript.is_cachable = true ∧
    ∃ l, boxScript.iterate_possible_model_params_dicts = some l ∧
      boxScript.get_num_variants none = some l.length :=
  ⟨by decide, C3_num_variants_eq_iteration_count boxScript (by decide)⟩

/-- Claim C7: the claim states that a non cachable script always has the
unbounded variant count None. It fails on the source: is_cachable
inspects the iterable flag of every parameter, disabled ones included,
while get_num_variants skips disabled parameters entirely, so a script
whose only non iterable parameter is disabled is not cachable yet
reports one variant. -/
theorem C7_non_cachable_finite_variants :
    lockedScript.is_cachable = false ∧
    lockedScript.get_num_variants none = some 1 := by
  refine ⟨by decide, by decide⟩

/-- Claim C7 (amended): if some enabled parameter has an unbounded
domain, in particular whenever non cachability is caused by an enabled
parameter, get_num_variants returns the unbounded sentinel None. -/
theorem C7_enabled_unbounded_implies_none (s : CadScript)
    (h : ∃ p ∈ s.params, p.enabled = true ∧ p.values = none) :
    s.get_num_variants none = none := by
  unfold CadScript.get_num_variants selectedParams
  rw [numVariantsLoop_eq]
  have hany : s.params.any (fun p => p.enabled && p.values.isNone) = true := by
    obtain ⟨p, hmem, hen, hval⟩ := h
    exact List.any_eq_true.mpr ⟨p, hmem, by simp [hen, hval]⟩
  simp [specVariantCount, hany]

/-- Claim C7 amended witness: the freeform script has an enabled
unbounded parameter and its variant count is the sentinel. -/
theorem C7_enabled_unbounded_implies_none_witness :
    (∃ p ∈ freeformScript.params, p.enabled = true ∧ p.values = none) ∧
    freeformScript.get_num_variants none = none :=
  ⟨⟨ncParam, by simp [freeformScript], rfl, rfl⟩,
    C7_enabled_unbounded_implies_none freeformScript
      ⟨ncParam, by simp [freeformScript], rfl, rfl⟩⟩

/-- Claim C9: on a cachable script the iteration yields the parameter
assignments in the spec cartesian order, the fold over the declared
domains in which the last declared varying parameter cycles fastest, and
every yielded assignment pairs each declared parameter name positionally
with a value of its enumerated domain, a disabled parameter always
carrying its default value. -/
theorem C9_iteration_order_cartesian_last_fastest (s : CadScript)
    (h : s.is_cachable = true) :
    ∃ l, s.iterate_possible_model_params_dicts = some l ∧
      l.map Prod.snd = (specCartesian (s.params.map enumeratedDomain)).map
        (fun combo => (s.params.map ParamConfig.name).zip combo) ∧
      ∀ pv ∈ l, List.Forall₂
        (fun p nv => nv.1 = p.name ∧ (p.enabled = false → nv.2 = p.default))
        s.params pv.2 := by
  have hd := allSome_of_iterable s.params h
  refine ⟨(pyProduct (s.params.map enumeratedDomain)).map
      (fun combo =>
        (scriptIdentity s.name ((s.params.map ParamConfig.name).zip combo),
          (s.params.map ParamConfig.name).zip combo)), ?_, ?_, ?_⟩
  · unfold CadScript.iterate_possible_model_params_dicts paramDomainsEnabled
    rw [hd]
    rfl
  · rw [specCartesian_eq_pyProduct]
    simp [List.map_map, Function.comp_def]
  · intro pv hpv
    rw [List.mem_map] at hpv
    obtain ⟨combo, hcombo, rfl⟩ := hpv
    have hmem := (mem_pyProduct _ _).mp hcombo
    rw [List.forall₂_map_right_iff] at hmem
    exact forall₂_zip_names s.params combo hmem

/-- Claim C9 witness: the box script is cachable and its iteration obeys
the spec cartesian order with disabled parameters fixed. -/
theorem C9_iteration_order_witness :
    boxScript.is_cachable = true ∧
    ∃ l, boxScript.iterate_possible_model_params_dicts = some l ∧
      l.map Prod.snd = (specCartesian (boxScript.params.map enumeratedDomain)).map
        (fun combo => (boxScript.params.map ParamConfig.name).zip combo) ∧
      ∀ pv ∈ l, List.Forall₂
        (fun p nv => nv.1 = p.name ∧ (p.enabled = false → nv.2 = p.default))
        boxScript.params pv.2 :=
  ⟨by decide, C9_iteration_order_cartesian_last_fastest boxScript (by decide)⟩

/-- Concrete ordering check on the box scenario: color, declared last,
cycles fastest through red and blue while width steps slowly. -/
example :
    (boxScript.iterate_possible_model_params_dicts.getD []).map Prod.snd =
      [[("width", PValue.int 1), ("color", PValue.str "red")],
       [("width", PValue.int 1), ("color", PValue.str "blue")],
       [("width", PValue.int 2), ("color", PValue.str "red")],
       [("width", PValue.int 2), ("color", PValue.str "blue")],
       [("width", PValue.int 3), ("color", PValue.str "red")],
       [("width", PValue.int 3), ("color", PValue.str "blue")]] := by
  decide
